import Mathlib

/-
Shallow embedding of the TravelBuddy personalized-retrieval subsystem:
`backend/app/models/user_preferences.py` (class UserPreferences) and the
filter-coercion part of `backend/app/models/rag_pipeline.py` (class RAGPipeline).

Python dictionaries are modelled as insertion-ordered association lists,
floating-point numbers as rationals, and the external sentence-transformer
encoder together with `numpy.linalg.norm` as abstract functions bundled in an
environment record.  Python exceptions are modelled with `Except`.
The current calendar month (read from `datetime.now()` in the source) is an
explicit parameter of every function that consults it.
-/

namespace TravelBuddy

/-- Python `d.get(k)` on an insertion-ordered dict modelled as an assoc list. -/
def dget? {α : Type} : List (String × α) → String → Option α
  | [], _ => none
  | (k', v') :: rest, k => if k' = k then some v' else dget? rest k

/-- Python `d.get(k, default)`. -/
def dgetD {α : Type} (m : List (String × α)) (k : String) (d : α) : α :=
  (dget? m k).getD d

/-- Python `d[k] = v`: replace in place if the key is present, else append. -/
def dset {α : Type} : List (String × α) → String → α → List (String × α)
  | [], k, v => [(k, v)]
  | (k', v') :: rest, k, v =>
      if k' = k then (k', v) :: rest else (k', v') :: dset rest k v

/-- Exceptions that the modelled code can raise. -/
inductive PyErr
  | keyError
  | zeroDivision
deriving DecidableEq

/-- The external dependencies of `UserPreferences`: the sentence-transformer
`encode` (one text to one vector) and `numpy.linalg.norm`.  Both are opaque
library functions, modelled as arbitrary rational-valued maps. -/
structure EncoderEnv where
  encode : String → List ℚ
  npNorm : List ℚ → ℚ

/-- `numpy.dot` on 1-D arrays. -/
def dot (a b : List ℚ) : ℚ :=
  (List.zipWith (fun x y => x * y) a b).foldl (fun x y => x + y) 0

/-- Elementwise vector addition (`numpy` broadcasting on equal-length 1-D arrays). -/
def vecAdd (a b : List ℚ) : List ℚ := List.zipWith (fun x y => x + y) a b

/-- `numpy.mean(vs, axis=0)` for a non-empty list of vectors. -/
def npMean : List (List ℚ) → List ℚ
  | [] => []
  | v :: vs => (vs.foldl vecAdd v).map (fun x => x / ((vs.length : ℚ) + 1))

/-- `numpy.average(vecs, weights=ws, axis=0)`: the weighted sum divided by the
sum of the weights; numpy raises `ZeroDivisionError` when the weights sum to
zero ("Weights sum to zero, can't be normalized"). -/
def npAverage (vecs : List (List ℚ)) (ws : List ℚ) : Except PyErr (List ℚ) :=
  let total := ws.foldl (fun x y => x + y) 0
  if total = 0 then Except.error PyErr.zeroDivision
  else
    match (vecs.zip ws).map (fun p => p.1.map (fun x => p.2 * x)) with
    | [] => Except.ok []
    | v :: vs => Except.ok ((vs.foldl vecAdd v).map (fun x => x / total))

/-- Python `min(scores)` on a non-empty list (`0` on `[]`, unreachable in use). -/
def listMin : List ℚ → ℚ
  | [] => 0
  | x :: xs => xs.foldl min x

/-- Python `max(scores)` on a non-empty list (`0` on `[]`, unreachable in use). -/
def listMax : List ℚ → ℚ
  | [] => 0
  | x :: xs => xs.foldl max x

/-- One interaction event: each field is an optional dict entry
(`query`, `item_name`, `category`, `rating`). -/
structure Interaction where
  query : Option String
  item_name : Option String
  category : Option String
  rating : Option ℚ
deriving DecidableEq

/-- The declared profile fields consulted by `update_preferences`. -/
structure Profile where
  interests : Option (List String)
  travel_style : Option String
  preferred_activities : Option (List String)
  travel_season : Option String
  travel_group : Option String
  special_requirements : Option (List String)
  preferred_amenities : Option (List String)
deriving DecidableEq

/-- The metadata fields of a candidate that the scorer consults; each is an
optional dict entry. -/
structure ItemMeta where
  best_seasons : Option (List String)
  amenities : Option (List String)
  type : Option String
deriving DecidableEq

/-- A candidate item handed to `get_personalized_scores`. -/
structure Item where
  document : String
  metadata : ItemMeta
deriving DecidableEq

/-- Per-user travel-group record: `{'types': {...}, 'requirements': set()}`.
The requirement set is modelled as a duplicate-free list in insertion order. -/
structure GroupPrefs where
  types : List (String × ℕ)
  requirements : List String
deriving DecidableEq

/-- The mutable state of a `UserPreferences` instance. -/
structure UserPreferences where
  user_embeddings : List (String × List ℚ)
  preference_vectors : List (String × List (String × List ℚ))
  seasonal_preferences : List (String × List (String × ℚ))
  travel_group_preferences : List (String × GroupPrefs)
  amenity_preferences : List (String × List (String × ℕ))
deriving DecidableEq

/-- Python truthiness of `i.get('rating')`: present and non-zero. -/
def truthyRating : Option ℚ → Bool
  | some r => r != 0
  | none => false

/-- Python `str.lower()` (ASCII model, matching the month and season names
and amenity labels the code compares). -/
def pyLower (s : String) : String := ⟨s.data.map Char.toLower⟩

/-- The texts gathered by `update_preferences` (lines 28-44): interaction
queries, interaction item names, profile interests, travel style, preferred
activities, in that order. -/
def gatherTexts (interactions : List Interaction) (profile : Profile) : List String :=
  (interactions.filterMap (fun i => i.query))
    ++ (interactions.filterMap (fun i => i.item_name))
    ++ profile.interests.getD []
    ++ profile.travel_style.toList
    ++ profile.preferred_activities.getD []

/-- `_update_seasonal_preferences` restricted to one user's map: add 0.7 when
the season (case-insensitively) equals the current month, else 0.3, on top of
any previously stored weight. -/
def updSeasonalUser (m : List (String × ℚ)) (season curMonth : String) :
    List (String × ℚ) :=
  let w : ℚ := if pyLower season = pyLower curMonth then 7/10 else 3/10
  match dget? m season with
  | some old => dset m season (old + w)
  | none => dset m season w

/-- `_update_seasonal_preferences` (lines 107-120): lazily create the user's
map, then accumulate the weight for `season`. -/
def updateSeasonalPreferences (sp : List (String × List (String × ℚ)))
    (uid season curMonth : String) : List (String × List (String × ℚ)) :=
  dset sp uid (updSeasonalUser (dgetD sp uid []) season curMonth)

/-- `_update_travel_group_preferences` (lines 122-143): bump the group-type
count and union the special requirements into the stored set. -/
def updateTravelGroupPreferences (m : List (String × GroupPrefs))
    (uid group_type : String) (special_requirements : List String) :
    List (String × GroupPrefs) :=
  let gp := dgetD m uid ⟨[], []⟩
  let types := match dget? gp.types group_type with
    | some c => dset gp.types group_type (c + 1)
    | none => dset gp.types group_type 1
  let reqs := special_requirements.foldl
    (fun acc r => if r ∈ acc then acc else acc ++ [r]) gp.requirements
  dset m uid ⟨types, reqs⟩

/-- `_update_amenity_preferences` (lines 145-154): bump a per-amenity count. -/
def updateAmenityPreferences (m : List (String × List (String × ℕ)))
    (uid : String) (amenities : List String) : List (String × List (String × ℕ)) :=
  let am := amenities.foldl
    (fun acc a => match dget? acc a with
      | some c => dset acc a (c + 1)
      | none => dset acc a 1)
    (dgetD m uid [])
  dset m uid am

/-- The min-max rating weighting of `_update_preference_vectors` line 99:
`(ratings - ratings.min()) / (ratings.max() - ratings.min() + 1e-6)`. -/
def minMaxWeights (ratings : List ℚ) : List ℚ :=
  ratings.map (fun r =>
    (r - listMin ratings) / (listMax ratings - listMin ratings + 1/1000000))

/-- The list comprehension `[i['item_name'] for i in relevant_items]`
(line 92): a `KeyError` at the first interaction lacking `item_name`. -/
def extractNames : List Interaction → Except PyErr (List String)
  | [] => Except.ok []
  | i :: rest =>
    match i.item_name with
    | some n => (extractNames rest).map (fun ns => n :: ns)
    | none => Except.error PyErr.keyError

/-- The body of the `for category in categories` loop of
`_update_preference_vectors` (lines 84-105), processing the category list in
order and threading the `preference_vectors` dict; any exception aborts the
remaining iterations. -/
def updatePreferenceVectorsGo (env : EncoderEnv) (interactions : List Interaction)
    (uid : String) :
    List String → List (String × List (String × List ℚ)) →
      Except PyErr (List (String × List (String × List ℚ)))
  | [], pv => Except.ok pv
  | c :: rest, pv =>
    let relevant := interactions.filter
      (fun i => i.category == some c && truthyRating i.rating)
    if relevant.isEmpty then updatePreferenceVectorsGo env interactions uid rest pv
    else
      match extractNames relevant with
      | Except.error e => Except.error e
      | Except.ok items =>
        let ratings := relevant.map (fun i => i.rating.getD 0)
        let weights := minMaxWeights ratings
        let embeddings := items.map env.encode
        match npAverage embeddings weights with
        | Except.error e => Except.error e
        | Except.ok avg =>
          updatePreferenceVectorsGo env interactions uid rest
            (dset pv uid (dset (dgetD pv uid []) c avg))

/-- `_update_preference_vectors` (lines 75-105): the categories are
`['hotels', 'attractions', 'activities']`. -/
def updatePreferenceVectors (env : EncoderEnv)
    (pv : List (String × List (String × List ℚ))) (uid : String)
    (interactions : List Interaction) :
    Except PyErr (List (String × List (String × List ℚ))) :=
  updatePreferenceVectorsGo env interactions uid
    [ "hotels", "attractions", "activities" ] pv

/-- `update_preferences` (lines 19-73): seasonal, travel-group and amenity
updates fire on the presence of their profile fields; the embedding average
and the preference-vector update run only when some text was gathered. -/
def update_preferences (env : EncoderEnv) (st : UserPreferences) (uid : String)
    (interactions : List Interaction) (profile : Profile) (curMonth : String) :
    Except PyErr UserPreferences :=
  let texts := gatherTexts interactions profile
  let st1 := match profile.travel_season with
    | some s =>
      { st with seasonal_preferences :=
          updateSeasonalPreferences st.seasonal_preferences uid s curMonth }
    | none => st
  let st2 := match profile.travel_group with
    | some g =>
      { st1 with travel_group_preferences :=
          (updateTravelGroupPreferences st1.travel_group_preferences uid g
            (profile.special_requirements.getD [])) }
    | none => st1
  let st3 := match profile.preferred_amenities with
    | some am =>
      { st2 with amenity_preferences :=
          updateAmenityPreferences st2.amenity_preferences uid am }
    | none => st2
  if texts.isEmpty then Except.ok st3
  else
    let avg := npMean (texts.map env.encode)
    let st4 := { st3 with user_embeddings := dset st3.user_embeddings uid avg }
    match updatePreferenceVectors env st4.preference_vectors uid interactions with
    | Except.ok pv => Except.ok { st4 with preference_vectors := pv }
    | Except.error e => Except.error e

/-- The body of the per-item loop of `get_personalized_scores`
(lines 181-240): the running `score` starts at 1.0 and each present factor
multiplies into it.  `user_emb` and `category_emb` are the values looked up
once before the loop; `curMonth` is `datetime.now().strftime('%B').lower()`
(already lower-cased in the source, line 179). -/
def rawScore (env : EncoderEnv) (st : UserPreferences) (uid : String)
    (user_emb category_emb : Option (List ℚ)) (curMonth : String)
    (item_emb : List ℚ) (item : Item) : ℚ :=
  let s1 := match user_emb with
    | some u => 1 * ((3 : ℚ)/10 * (1 + dot item_emb u / (env.npNorm item_emb * env.npNorm u)))
    | none => 1
  let s2 := match category_emb with
    | some c => s1 * ((2 : ℚ)/10 * (1 + dot item_emb c / (env.npNorm item_emb * env.npNorm c)))
    | none => s1
  let s3 := match dget? st.seasonal_preferences uid with
    | some sp =>
      let seasons := item.metadata.best_seasons.getD [curMonth]
      let season_score := seasons.foldl
        (fun acc season =>
          match dget? sp (pyLower season) with
          | some w => acc * (1 + w)
          | none => acc) 1
      s2 * ((15 : ℚ)/100 * season_score)
    | none => s2
  let s4 := match dget? st.travel_group_preferences uid with
    | some gp =>
      let amenities := item.metadata.amenities.getD []
      let g1 := if gp.requirements.isEmpty then (1 : ℚ)
        else 1 * (1 + ((gp.requirements.filter (fun r => amenities.contains r)).length : ℚ)
          / (gp.requirements.length : ℚ))
      let g2 := if gp.types.isEmpty then g1
        else
          let hotel_type := pyLower (item.metadata.type.getD "")
          if (hotel_type = "family" ∨ hotel_type = "resort")
              ∧ (dget? gp.types "family").isSome then g1 * (3/2)
          else if (hotel_type = "boutique" ∨ hotel_type = "villa")
              ∧ (dget? gp.types "couple").isSome then g1 * (3/2)
          else g1
      s3 * ((2 : ℚ)/10 * g2)
    | none => s3
  let s5 := match dget? st.amenity_preferences uid with
    | some ap =>
      let item_amenities := (item.metadata.amenities.getD []).map pyLower
      let amenity_score := ap.foldl
        (fun acc p =>
          if item_amenities.contains (pyLower p.1) then acc * (1 + (p.2 : ℚ)/10)
          else acc) 1
      s4 * ((15 : ℚ)/100 * amenity_score)
    | none => s4
  s5

/-- The pre-normalization score list of `get_personalized_scores`
(the `scores` list right after the loop, line 240). -/
def rawScoresList (env : EncoderEnv) (st : UserPreferences) (uid : String)
    (items : List Item) (category curMonth : String) : List ℚ :=
  let user_emb := dget? st.user_embeddings uid
  let category_emb := dget? (dgetD st.preference_vectors uid []) category
  items.map (fun it =>
    rawScore env st uid user_emb category_emb curMonth (env.encode it.document) it)

/-- The final min-max normalization of `get_personalized_scores`
(lines 242-248): rescale only when `max_score > min_score`. -/
def normalizeScores (scores : List ℚ) : List ℚ :=
  let mn := listMin scores
  let mx := listMax scores
  if mn < mx then scores.map (fun s => (s - mn) / (mx - mn)) else scores

/-- `get_personalized_scores` (lines 156-249). -/
def get_personalized_scores (env : EncoderEnv) (st : UserPreferences)
    (uid : String) (items : List Item) (category curMonth : String) : List ℚ :=
  if items.isEmpty then []
  else
    let user_emb := dget? st.user_embeddings uid
    let category_emb := dget? (dgetD st.preference_vectors uid []) category
    match user_emb, category_emb with
    | none, none => List.replicate items.length 1
    | _, _ => normalizeScores (rawScoresList env st uid items category curMonth)

/-
Filter coercion of `rag_pipeline.py`.  A filter value is either a number or a
string; Python `float(...)` / `int(...)` coercion is modelled for numbers and
plain (unsigned or signed) decimal literals, returning `none` where the Python
call raises `TypeError` or `ValueError`.
-/

/-- A scalar filter value as received from the request layer. -/
inductive PyVal
  | pnum (q : ℚ)
  | pstr (s : String)
deriving DecidableEq

/-- Value of a non-empty digit string. -/
def digitsToNat (l : List Char) : ℕ :=
  l.foldl (fun acc c => 10 * acc + (c.toNat - 48)) 0

/-- Unsigned decimal literal, with an optional fractional part
(`"12"`, `"12.5"`, `".5"`, `"12."`); anything else fails. -/
def parseUnsignedFloat? (l : List Char) : Option ℚ :=
  let intPart := l.takeWhile (fun c => c.isDigit)
  let rest := l.dropWhile (fun c => c.isDigit)
  match rest with
  | [] => if intPart.isEmpty then none else some (digitsToNat intPart : ℚ)
  | '.' :: frac =>
    if frac.all (fun c => c.isDigit) ∧ ¬(intPart.isEmpty ∧ frac.isEmpty) then
      some ((digitsToNat intPart : ℚ) + (digitsToNat frac : ℚ) / ((10 : ℚ) ^ frac.length))
    else none
  | _ => none

/-- Model of Python `float(s)` on a string. -/
def strToFloat? (s : String) : Option ℚ :=
  match s.toList with
  | '-' :: rest => (parseUnsignedFloat? rest).map Neg.neg
  | '+' :: rest => parseUnsignedFloat? rest
  | l => parseUnsignedFloat? l

/-- Model of Python `int(s)` on a string: digits only, no fractional part. -/
def strToInt? (s : String) : Option ℤ :=
  let go : List Char → Option ℤ := fun l =>
    if l.isEmpty ∨ ¬ l.all (fun c => c.isDigit) then none
    else some (digitsToNat l : ℤ)
  match s.toList with
  | '-' :: rest => (go rest).map Neg.neg
  | '+' :: rest => go rest
  | l => go l

/-- Python `int(q)` on a number: truncation toward zero. -/
def pyTrunc (q : ℚ) : ℤ := if 0 ≤ q then q.floor else -((-q).floor)

/-- Python `float(v)`, `none` where the coercion raises. -/
def pyFloat? : PyVal → Option ℚ
  | PyVal.pnum q => some q
  | PyVal.pstr s => strToFloat? s

/-- Python `int(v)`, `none` where the coercion raises. -/
def pyInt? : PyVal → Option ℤ
  | PyVal.pnum q => some (pyTrunc q)
  | PyVal.pstr s => strToInt? s

/-- The filter dict consulted by `search_hotels` and `search_itineraries`;
`none` stands for an absent key as well as an explicit `None` value (both are
skipped by the `is not None` guards). -/
structure Filters where
  max_price : Option PyVal
  min_rating : Option PyVal
  duration : Option PyVal
  max_budget : Option PyVal
deriving DecidableEq

/-- The ChromaDB where-clause built by `search_hotels`:
`{'price': {'$lte': _}, 'rating': {'$gte': _}}`. -/
structure HotelWhere where
  price_lte : Option ℚ
  rating_gte : Option ℚ
deriving DecidableEq

/-- `search_hotels` lines 232-253: coerce `max_price` and `min_rating` with
`float`, silently dropping a filter whose coercion raises; an empty dict is
passed to the collection as `None`. -/
def buildHotelsWhere (f : Filters) : Option HotelWhere :=
  let w1 : HotelWhere := ⟨none, none⟩
  let w2 := match f.max_price with
    | some v =>
      match pyFloat? v with
      | some q => { w1 with price_lte := some q }
      | none => w1
    | none => w1
  let w3 := match f.min_rating with
    | some v =>
      match pyFloat? v with
      | some q => { w2 with rating_gte := some q }
      | none => w2
    | none => w2
  if w3 = ⟨none, none⟩ then none else some w3

/-- One condition of the itinerary where-clause. -/
inductive ItinCond
  | durationEq (n : ℤ)
  | budgetLte (q : ℚ)
deriving DecidableEq

/-- The where-clause of `search_itineraries`: a single condition, or several
conditions under `'$and'`. -/
inductive ItinWhere
  | single (c : ItinCond)
  | andAll (cs : List ItinCond)
deriving DecidableEq

/-- `search_itineraries` lines 285-306: coerce `duration` with `int` and
`max_budget` with `float`, dropping a filter whose coercion raises; zero
conditions give `None`, one is passed bare, several are wrapped in `'$and'`. -/
def buildItinerariesWhere (f : Filters) : Option ItinWhere :=
  let c1 := match f.duration with
    | some v => (pyInt? v).map ItinCond.durationEq
    | none => none
  let c2 := match f.max_budget with
    | some v => (pyFloat? v).map ItinCond.budgetLte
    | none => none
  match c1.toList ++ c2.toList with
  | [] => none
  | [c] => some (ItinWhere.single c)
  | cs => some (ItinWhere.andAll cs)

/-- `search_hotels` with the collection lookup abstracted: for a fixed query
text, embedding and result count, `collection.query` followed by
`_format_results` is an arbitrary function of the where-clause. -/
def search_hotels {R : Type} (query : Option HotelWhere → List R)
    (f : Filters) : List R :=
  query (buildHotelsWhere f)

/-- `search_itineraries` with the collection lookup abstracted likewise. -/
def search_itineraries {R : Type} (query : Option ItinWhere → List R)
    (f : Filters) : List R :=
  query (buildItinerariesWhere f)

/-
Concrete fixtures used by witnesses and counterexamples.
-/

/-- A concrete environment: every text encodes to `[1]`, every norm is `1`. -/
def env0 : EncoderEnv := ⟨fun _ => [1], fun _ => 1⟩

/-- A freshly initialized `UserPreferences` state. -/
def emptyPrefs : UserPreferences := ⟨[], [], [], [], []⟩

/-- A profile with no declared fields. -/
def profEmpty : Profile := ⟨none, none, none, none, none, none, none⟩

/-- A state for a user who has a general embedding and a seasonal weight for
October, and nothing else. -/
def stOct : UserPreferences :=
  { user_embeddings := [("u1", [1])]
    preference_vectors := []
    seasonal_preferences := [("u1", [("october", 3/10)])]
    travel_group_preferences := []
    amenity_preferences := [] }

/-- A candidate with no `best_seasons`, `amenities` or `type` metadata. -/
def itemBare : Item := { document := "doc", metadata := ⟨none, none, none⟩ }

/-- A single rated hotels interaction that carries an item name. -/
def interRated : List Interaction :=
  [⟨none, some "Grand Hotel", some "hotels", some 3⟩]

/-- A rated hotels interaction with no `item_name` and no `query`. -/
def interNoName : List Interaction := [⟨none, none, some "hotels", some 5⟩]

/-- A rated hotels interaction with a `query` but no `item_name`. -/
def interNoName2 : List Interaction := [⟨some "beach", none, some "hotels", some 5⟩]

/-- The claim C6 reads the scorer as defaulting every missing consulted
metadata field to an empty/neutral value: empty season list, empty amenity
list, empty type string. -/
def fillEmptyDefaults (it : Item) : Item :=
  { it with metadata :=
      { best_seasons := some (it.metadata.best_seasons.getD [])
        amenities := some (it.metadata.amenities.getD [])
        type := some (it.metadata.type.getD "") } }

/-- The defaults the scorer actually substitutes (lines 201, 213, 221, 232):
a missing `best_seasons` becomes the singleton current month, missing
`amenities` the empty list, missing `type` the empty string. -/
def fillCodeDefaults (curMonth : String) (it : Item) : Item :=
  { it with metadata :=
      { best_seasons := some (it.metadata.best_seasons.getD [curMonth])
        amenities := some (it.metadata.amenities.getD [])
        type := some (it.metadata.type.getD "") } }

/-- The seasonal factor described in the spec: starting from 1, multiply by
`(1 + w)` for every season label whose lower-cased form is a stored key with
weight `w`. -/
def seasonScoreSpec (sp : List (String × ℚ)) (seasons : List String) : ℚ :=
  seasons.foldl
    (fun acc season =>
      match dget? sp (pyLower season) with
      | some w => acc * (1 + w)
      | none => acc) 1

/-- The state with the given user's seasonal data removed. -/
def removeSeasonal (st : UserPreferences) (uid : String) : UserPreferences :=
  { st with seasonal_preferences :=
      st.seasonal_preferences.filter (fun p => ¬ (p.1 = uid)) }

/-
Helper lemmas.
-/

theorem foldl_min_le_init (l : List ℚ) (a : ℚ) : l.foldl min a ≤ a := by
  induction l generalizing a with
  | nil => exact le_refl a
  | cons x xs ih =>
    exact le_trans (ih (min a x)) (min_le_left a x)

theorem foldl_min_le_mem (l : List ℚ) (a x : ℚ) (hx : x ∈ l) :
    l.foldl min a ≤ x := by
  induction l generalizing a with
  | nil => cases hx
  | cons y ys ih =>
    rcases List.mem_cons.mp hx with h | h
    · subst h
      exact le_trans (foldl_min_le_init ys (min a x)) (min_le_right a x)
    · exact ih (min a y) h

theorem le_foldl_max_init (l : List ℚ) (a : ℚ) : a ≤ l.foldl max a := by
  induction l generalizing a with
  | nil => exact le_refl a
  | cons x xs ih =>
    exact le_trans (le_max_left a x) (ih (max a x))

theorem le_foldl_max_mem (l : List ℚ) (a x : ℚ) (hx : x ∈ l) :
    x ≤ l.foldl max a := by
  induction l generalizing a with
  | nil => cases hx
  | cons y ys ih =>
    rcases List.mem_cons.mp hx with h | h
    · subst h
      exact le_trans (le_max_right a x) (le_foldl_max_init ys (max a x))
    · exact ih (max a y) h

theorem listMin_le_mem {l : List ℚ} {x : ℚ} (hx : x ∈ l) : listMin l ≤ x := by
  cases l with
  | nil => cases hx
  | cons y ys =>
    rcases List.mem_cons.mp hx with h | h
    · subst h; exact foldl_min_le_init ys x
    · exact foldl_min_le_mem ys y x h

theorem le_listMax_mem {l : List ℚ} {x : ℚ} (hx : x ∈ l) : x ≤ listMax l := by
  cases l with
  | nil => cases hx
  | cons y ys =>
    rcases List.mem_cons.mp hx with h | h
    · subst h; exact le_foldl_max_init ys x
    · exact le_foldl_max_mem ys y x h

/-
Claim theorems.
-/

/-- C1: a user with neither a stored general embedding nor a category
preference vector for the queried category gets the uniform score 1.0 for
every candidate of a non-empty candidate list. -/
theorem c1_no_signal_uniform_scores (env : EncoderEnv) (st : UserPreferences)
    (uid : String) (items : List Item) (category curMonth : String)
    (h1 : dget? st.user_embeddings uid = none)
    (h2 : dget? (dgetD st.preference_vectors uid []) category = none)
    (h3 : items ≠ []) :
    get_personalized_scores env st uid items category curMonth
      = List.replicate items.length 1 := by
  unfold get_personalized_scores
  rw [h1, h2]
  simp [List.isEmpty_iff, h3]

/-- C1 witness: a fresh state yields `[1.0]` on a one-candidate list. -/
theorem c1_witness :
    dget? emptyPrefs.user_embeddings "u1" = none ∧
    dget? (dgetD emptyPrefs.preference_vectors "u1" []) "hotels" = none ∧
    [itemBare] ≠ ([] : List Item) ∧
    get_personalized_scores env0 emptyPrefs "u1" [itemBare] "hotels" "may"
      = List.replicate 1 1 :=
  ⟨rfl, rfl, by simp,
    c1_no_signal_uniform_scores env0 emptyPrefs "u1" [itemBare] "hotels" "may"
      rfl rfl (by simp)⟩

theorem normalizeScores_shape (l : List ℚ) {n : ℕ} (hl : l.length = n) :
    (normalizeScores l).length = n ∧
    ((∀ s ∈ normalizeScores l, 0 ≤ s ∧ s ≤ 1) ∨
      (normalizeScores l = l ∧ ∀ a ∈ l, ∀ b ∈ l, a = b)) := by
  constructor
  · unfold normalizeScores
    by_cases h : listMin l < listMax l <;> simp [h, hl]
  · by_cases h : listMin l < listMax l
    · refine Or.inl ?_
      intro s hs
      simp [normalizeScores, h] at hs
      rcases hs with ⟨x, hx, rfl⟩
      have h1 : listMin l ≤ x := listMin_le_mem hx
      have h2 : x ≤ listMax l := le_listMax_mem hx
      have hpos : 0 < listMax l - listMin l := sub_pos.mpr h
      constructor
      · exact div_nonneg (sub_nonneg.mpr h1) (le_of_lt hpos)
      · rw [div_le_one hpos]
        exact sub_le_sub_right h2 _
    · refine Or.inr ⟨by simp [normalizeScores, h], ?_⟩
      intro a ha b hb
      have hle : listMax l ≤ listMin l := not_lt.mp h
      have ha' : a = listMin l :=
        le_antisymm (le_trans (le_listMax_mem ha) hle) (listMin_le_mem ha)
      have hb' : b = listMin l :=
        le_antisymm (le_trans (le_listMax_mem hb) hle) (listMin_le_mem hb)
      rw [ha', hb']

/-- C2: `get_personalized_scores` returns one score per candidate, in order;
every score lies in `[0,1]`, except that when all raw (pre-normalization)
scores are equal the raw values are returned numerically unchanged. -/
theorem c2_score_length_and_range (env : EncoderEnv) (st : UserPreferences)
    (uid : String) (items : List Item) (category curMonth : String) :
    (get_personalized_scores env st uid items category curMonth).length
        = items.length ∧
    ((∀ s ∈ get_personalized_scores env st uid items category curMonth,
        0 ≤ s ∧ s ≤ 1) ∨
      (get_personalized_scores env st uid items category curMonth
          = rawScoresList env st uid items category curMonth ∧
        ∀ a ∈ rawScoresList env st uid items category curMonth,
          ∀ b ∈ rawScoresList env st uid items category curMonth, a = b)) := by
  by_cases hi : items.isEmpty
  · rw [List.isEmpty_iff] at hi
    subst hi
    refine ⟨by simp [get_personalized_scores], Or.inl ?_⟩
    simp [get_personalized_scores]
  · have hlen : (rawScoresList env st uid items category curMonth).length
        = items.length := by
      simp [rawScoresList]
    rcases hue : dget? st.user_embeddings uid with _ | u
    · rcases hce : dget? (dgetD st.preference_vectors uid []) category with _ | c
      · constructor
        · simp [get_personalized_scores, hi, hue, hce]
        · refine Or.inl ?_
          intro s hs
          simp [get_personalized_scores, hi, hue, hce] at hs
          rcases hs with ⟨-, hs⟩
          subst hs
          exact ⟨zero_le_one, le_refl 1⟩
      · have hres : get_personalized_scores env st uid items category curMonth
            = normalizeScores (rawScoresList env st uid items category curMonth) := by
          simp [get_personalized_scores, hi, hue, hce]
        rw [hres]
        exact normalizeScores_shape _ hlen
    · have hres : get_personalized_scores env st uid items category curMonth
          = normalizeScores (rawScoresList env st uid items category curMonth) := by
        rcases hce : dget? (dgetD st.preference_vectors uid []) category with _ | c <;>
          simp [get_personalized_scores, hi, hue, hce]
      rw [hres]
      exact normalizeScores_shape _ hlen

/-- C3: a numeric filter value that fails numeric coercion is silently
dropped: the query runs exactly as if that filter were absent, for each of
`max_price`, `min_rating` (hotels) and `duration`, `max_budget`
(itineraries), and no exception escapes. -/
theorem c3_malformed_filters_dropped {R R' : Type}
    (qh : Option HotelWhere → List R) (qi : Option ItinWhere → List R')
    (f : Filters) (v : PyVal) :
    (f.max_price = some v → pyFloat? v = none →
      search_hotels qh f = search_hotels qh { f with max_price := none }) ∧
    (f.min_rating = some v → pyFloat? v = none →
      search_hotels qh f = search_hotels qh { f with min_rating := none }) ∧
    (f.duration = some v → pyInt? v = none →
      search_itineraries qi f = search_itineraries qi { f with duration := none }) ∧
    (f.max_budget = some v → pyFloat? v = none →
      search_itineraries qi f = search_itineraries qi { f with max_budget := none }) := by
  refine ⟨fun h1 h2 => ?_, fun h1 h2 => ?_, fun h1 h2 => ?_, fun h1 h2 => ?_⟩
  · simp [search_hotels, buildHotelsWhere, h1, h2]
  · simp [search_hotels, buildHotelsWhere, h1, h2]
  · simp [search_itineraries, buildItinerariesWhere, h1, h2]
  · simp [search_itineraries, buildItinerariesWhere, h1, h2]

/-- A filter set whose `max_price` is the non-numeric string `"cheap"`. -/
def fBad : Filters := ⟨some (PyVal.pstr "cheap"), none, none, none⟩

/-- C3 witness: the `"cheap"` max-price filter is dropped and the hotel
query behaves as if no max-price filter were given. -/
theorem c3_witness :
    fBad.max_price = some (PyVal.pstr "cheap") ∧
    pyFloat? (PyVal.pstr "cheap") = none ∧
    search_hotels (fun w => [w]) fBad
      = search_hotels (fun w => [w]) { fBad with max_price := none } :=
  ⟨rfl, by decide,
    (c3_malformed_filters_dropped (fun w => [w]) (fun w => [w]) fBad
      (PyVal.pstr "cheap")).1 rfl (by decide)⟩

theorem pair_mem_zip_map {α β : Type} (l : List α) (f : α → β) (p : α × β)
    (hp : p ∈ l.zip (l.map f)) : p.2 = f p.1 := by
  induction l with
  | nil => cases hp
  | cons x xs ih =>
    rcases List.mem_cons.mp hp with h | h
    · rw [h]
    · exact ih h

/-- C4 counterexample: for the batch with ratings 5 and 1, the code's min-max
weighting gives the rating-5 item weight `4000000/4000001`, not exactly 1.0
(the `+ 1e-6` in the denominator of line 99 keeps the top weight strictly
below 1); the rating-1 item does get exactly 0. -/
theorem c4_counterexample :
    minMaxWeights [5, 1] = [ 4000000/4000001, 0 ] ∧
    ((4000000 : ℚ)/4000001) ≠ 1 := by
  constructor
  · norm_num [minMaxWeights, listMin, listMax, min_def, max_def]
  · norm_num

/-- C4 amended: whenever the batch contains two distinct ratings, a
lowest-rated item gets weight exactly 0, and a highest-rated item gets weight
`(max - min) / (max - min + 1e-6)`, which is strictly below 1. -/
theorem c4_minmax_weight_extremes (rs : List ℚ)
    (h : listMin rs < listMax rs) :
    ∀ p ∈ rs.zip (minMaxWeights rs),
      (p.1 = listMin rs → p.2 = 0) ∧
      (p.1 = listMax rs →
        p.2 = (listMax rs - listMin rs) / (listMax rs - listMin rs + 1/1000000)
          ∧ p.2 < 1) := by
  intro p hp
  have hval : p.2 = (p.1 - listMin rs) / (listMax rs - listMin rs + 1/1000000) :=
    pair_mem_zip_map rs _ p hp
  have hpos : 0 < listMax rs - listMin rs := sub_pos.mpr h
  have heps : (0 : ℚ) < 1/1000000 := by norm_num
  have hden : 0 < listMax rs - listMin rs + 1/1000000 := add_pos hpos heps
  constructor
  · intro hmin
    rw [hval, hmin, sub_self, zero_div]
  · intro hmax
    rw [hval, hmax]
    refine ⟨rfl, ?_⟩
    rw [div_lt_one hden]
    linarith

/-- C4 witness: the ratings-5-and-1 batch instantiates the amended claim at
its rating-5 item. -/
theorem c4_witness :
    listMin [ (5 : ℚ), 1 ] < listMax [ (5 : ℚ), 1 ] ∧
    ((4000000 : ℚ)/4000001
        = (listMax [ (5 : ℚ), 1 ] - listMin [ (5 : ℚ), 1 ])
          / (listMax [ (5 : ℚ), 1 ] - listMin [ (5 : ℚ), 1 ] + 1/1000000)
      ∧ (4000000 : ℚ)/4000001 < 1) := by
  have h : listMin [ (5 : ℚ), 1 ] < listMax [ (5 : ℚ), 1 ] := by
    norm_num [listMin, listMax, min_def, max_def]
  have hp : ((5 : ℚ), (4000000 : ℚ)/4000001)
      ∈ ([ (5 : ℚ), 1 ]).zip (minMaxWeights [ (5 : ℚ), 1 ]) := by
    norm_num [minMaxWeights, listMin, listMax, min_def, max_def, List.zip]
  refine ⟨h, ?_⟩
  exact (c4_minmax_weight_extremes [ 5, 1 ] h
      ((5 : ℚ), (4000000 : ℚ)/4000001) hp).2
    (by norm_num [listMax, max_def])

/-- C5: the claim says a batch with a single rated item, or all-equal ratings,
degenerates gracefully; the code instead crashes: all min-max weights are 0,
and `np.average` raises `ZeroDivisionError` on a zero weight sum.  Evaluating
the embedded `_update_preference_vectors` at a single rated hotels interaction
shows the error. -/
theorem c5_single_rated_item_zero_division :
    updatePreferenceVectors env0 [] "u1" interRated
      = Except.error PyErr.zeroDivision := by
  have htr : truthyRating (some (3 : ℚ)) = true := by
    simp [truthyRating, bne_iff_ne]
  simp [updatePreferenceVectors, updatePreferenceVectorsGo, interRated, htr,
    extractNames, Except.map, dgetD, dget?, dset, npAverage, minMaxWeights,
    listMin, listMax, env0]

/-- C6 counterexample: for a candidate whose metadata lacks `best_seasons`,
the scorer does not substitute an empty/neutral default: substituting the
empty list changes the returned score (the code substitutes the singleton
current month instead, line 201). -/
theorem c6_counterexample :
    get_personalized_scores env0 stOct "u1" [ itemBare ] "hotels" "october"
      ≠ get_personalized_scores env0 stOct "u1"
          ([ itemBare ].map fillEmptyDefaults) "hotels" "october" := by
  have hlow : pyLower "october" = "october" := by decide
  simp [get_personalized_scores, stOct, itemBare, fillEmptyDefaults, env0,
    rawScoresList, rawScore, normalizeScores, listMin, listMax, dget?, dgetD,
    dot, hlow]

theorem rawScore_fillCodeDefaults (env : EncoderEnv) (st : UserPreferences)
    (uid : String) (ue ce : Option (List ℚ)) (curMonth : String) (e : List ℚ)
    (it : Item) :
    rawScore env st uid ue ce curMonth e (fillCodeDefaults curMonth it)
      = rawScore env st uid ue ce curMonth e it := by
  rcases it with ⟨doc, bs, am, ty⟩
  rcases bs <;> rcases am <;> rcases ty <;>
    simp [rawScore, fillCodeDefaults]

/-- C6 amended: the defaults actually substituted for missing consulted
metadata fields are the empty list for `amenities`, the empty string for
`type`, and the singleton current month for `best_seasons`; with those values
filled in explicitly the scorer returns the same list, and in particular it
never fails on missing fields. -/
theorem c6_missing_fields_code_defaults (env : EncoderEnv)
    (st : UserPreferences) (uid : String) (items : List Item)
    (category curMonth : String) :
    get_personalized_scores env st uid (items.map (fillCodeDefaults curMonth))
        category curMonth
      = get_personalized_scores env st uid items category curMonth := by
  have hraw : rawScoresList env st uid (items.map (fillCodeDefaults curMonth))
      category curMonth = rawScoresList env st uid items category curMonth := by
    unfold rawScoresList
    rw [List.map_map]
    refine List.map_congr_left ?_
    intro it _
    have hdoc : (fillCodeDefaults curMonth it).document = it.document := rfl
    simp only [Function.comp, hdoc]
    exact rawScore_fillCodeDefaults env st uid _ _ curMonth _ it
  have hemp : (items.map (fillCodeDefaults curMonth)).isEmpty = items.isEmpty := by
    cases items <;> rfl
  unfold get_personalized_scores
  rw [hraw, hemp, List.length_map]

theorem dget?_filter_ne {α : Type} (m : List (String × α)) (k : String) :
    dget? (m.filter (fun p => ¬ (p.1 = k))) k = none := by
  induction m with
  | nil => rfl
  | cons p rest ih =>
    by_cases h : p.1 = k
    · simpa [List.filter, h] using ih
    · simpa [List.filter, h, dget?] using ih

/-- C7: the seasonal factor of the per-item score. Relative to the same state
with the user's seasonal data removed, the raw score carries exactly one
extra factor: `0.15 * season_score`, where `season_score` multiplies
`(1 + w)` for every candidate season label whose lower-cased form is a stored
seasonal key with weight `w`; with no seasonal data the factor is absent. -/
theorem c7_seasonal_factor (env : EncoderEnv) (st : UserPreferences)
    (uid : String) (ue ce : Option (List ℚ)) (curMonth : String) (e : List ℚ)
    (it : Item) :
    rawScore env st uid ue ce curMonth e it =
      rawScore env (removeSeasonal st uid) uid ue ce curMonth e it *
        (match dget? st.seasonal_preferences uid with
          | some sp => (15 : ℚ)/100
              * seasonScoreSpec sp (it.metadata.best_seasons.getD [ curMonth ])
          | none => 1) := by
  have hrm : dget? ((removeSeasonal st uid).seasonal_preferences) uid = none :=
    dget?_filter_ne st.seasonal_preferences uid
  have hgp : (removeSeasonal st uid).travel_group_preferences
      = st.travel_group_preferences := rfl
  have hap : (removeSeasonal st uid).amenity_preferences
      = st.amenity_preferences := rfl
  rcases h : dget? st.seasonal_preferences uid with _ | sp <;>
    simp only [rawScore, h, hrm, hgp, hap, seasonScoreSpec] <;>
    rcases dget? st.travel_group_preferences uid with _ | gp <;>
    rcases dget? st.amenity_preferences uid with _ | ap <;>
    ring

theorem dget?_dset_self {α : Type} (m : List (String × α)) (k : String) (v : α) :
    dget? (dset m k v) k = some v := by
  induction m with
  | nil => simp [dset, dget?]
  | cons p rest ih =>
    obtain ⟨k', v'⟩ := p
    by_cases h : k' = k
    · simp [dset, dget?, h]
    · simp [dset, dget?, h, ih]

/-- C8: a seasonal update adds 0.7 to the stored weight when the season
matches the current month (0.3 otherwise), on top of whatever was stored
(defaulting to 0), never overwriting; in particular two updates with season
`"October"` while the current month is October accumulate `0.7 + 0.7`. -/
theorem c8_seasonal_weight_accumulates :
    (∀ (m : List (String × ℚ)) (season curMonth : String),
      dget? (updSeasonalUser m season curMonth) season
        = some ((dget? m season).getD 0
            + (if pyLower season = pyLower curMonth then (7 : ℚ)/10 else 3/10))) ∧
    (∀ uid : String,
      dget? (dgetD (updateSeasonalPreferences
          (updateSeasonalPreferences [] uid "October" "October")
          uid "October" "October") uid []) "October"
        = some ((7 : ℚ)/10 + 7/10)) := by
  constructor
  · intro m season cm
    unfold updSeasonalUser
    rcases h : dget? m season with _ | old
    · simp [h, dget?_dset_self]
    · simp [h, dget?_dset_self]
  · intro uid
    simp [updateSeasonalPreferences, updSeasonalUser, dgetD, dget?, dset,
      dget?_dset_self]

/-- C9: when no usable texts are gathered, `update_preferences` leaves the
general embedding and the category preference vectors untouched (the result
state changes at most the seasonal, travel-group and amenity maps, each
updated exactly when its profile field is present). -/
theorem c9_no_texts_frame (env : EncoderEnv) (st : UserPreferences)
    (uid : String) (interactions : List Interaction) (profile : Profile)
    (curMonth : String)
    (h : gatherTexts interactions profile = []) :
    update_preferences env st uid interactions profile curMonth
      = Except.ok { st with
          seasonal_preferences := (match profile.travel_season with
            | some s =>
                updateSeasonalPreferences st.seasonal_preferences uid s curMonth
            | none => st.seasonal_preferences)
          travel_group_preferences := (match profile.travel_group with
            | some g => (updateTravelGroupPreferences st.travel_group_preferences
                uid g (profile.special_requirements.getD []))
            | none => st.travel_group_preferences)
          amenity_preferences := (match profile.preferred_amenities with
            | some am => updateAmenityPreferences st.amenity_preferences uid am
            | none => st.amenity_preferences) } := by
  unfold update_preferences
  rw [h]
  rcases hts : profile.travel_season with _ | sea <;>
  rcases htg : profile.travel_group with _ | grp <;>
  rcases hpa : profile.preferred_amenities with _ | ams <;>
    simp [hts, htg, hpa]

/-- C9 witness: no interactions and an empty profile leave a fresh state
entirely unchanged. -/
theorem c9_witness :
    gatherTexts [] profEmpty = [] ∧
    update_preferences env0 emptyPrefs "u1" [] profEmpty "May"
      = Except.ok emptyPrefs :=
  ⟨rfl, c9_no_texts_frame env0 emptyPrefs "u1" [] profEmpty "May" rfl⟩

theorem extractNames_err (l : List Interaction)
    (hex : ∃ i ∈ l, i.item_name = none) :
    extractNames l = Except.error PyErr.keyError := by
  induction l with
  | nil =>
    rcases hex with ⟨i, hi, -⟩
    cases hi
  | cons j rest ih =>
    rcases hj : j.item_name with _ | n
    · simp [extractNames, hj]
    · rcases hex with ⟨i, hi, hn⟩
      rcases List.mem_cons.mp hi with rfl | hi'
      · rw [hj] at hn
        cases hn
      · simp [extractNames, hj, ih ⟨i, hi', hn⟩, Except.map]

/-- C10 counterexample: a rated hotels interaction lacking `item_name` does
NOT make `update_preferences` raise a `KeyError` when no usable text is
gathered: with no query, no item names and an empty profile the embedding
step is skipped entirely and the call returns the state unchanged. -/
theorem c10_counterexample :
    update_preferences env0 emptyPrefs "u1" interNoName profEmpty "October"
      = Except.ok emptyPrefs ∧
    (Except.ok emptyPrefs
      ≠ (Except.error PyErr.keyError : Except PyErr UserPreferences)) :=
  ⟨rfl, fun hh => Except.noConfusion hh⟩

/-- C10 amended: provided at least one usable text is gathered (so the
embedding step runs), a rated hotels interaction lacking `item_name` makes
`update_preferences` raise a `KeyError` instead of degrading gracefully. -/
theorem c10_rated_missing_name_keyerror (env : EncoderEnv)
    (st : UserPreferences) (uid : String) (interactions : List Interaction)
    (profile : Profile) (curMonth : String)
    (hT : gatherTexts interactions profile ≠ [])
    (i : Interaction) (hi : i ∈ interactions) (hc : i.category = some "hotels")
    (hr : truthyRating i.rating = true) (hn : i.item_name = none) :
    update_preferences env st uid interactions profile curMonth
      = Except.error PyErr.keyError := by
  have hTe : (gatherTexts interactions profile).isEmpty = false := by
    rw [Bool.eq_false_iff]
    intro hh
    exact hT (List.isEmpty_iff.mp hh)
  have hmem : i ∈ interactions.filter
      (fun j => j.category == some "hotels" && truthyRating j.rating) := by
    refine List.mem_filter.mpr ⟨hi, ?_⟩
    simp [hc, hr]
  have hne : (interactions.filter
      (fun j => j.category == some "hotels" && truthyRating j.rating)).isEmpty
        = false := by
    rw [Bool.eq_false_iff]
    intro hh
    exact List.ne_nil_of_mem hmem (List.isEmpty_iff.mp hh)
  have herr : extractNames (interactions.filter
      (fun j => j.category == some "hotels" && truthyRating j.rating))
        = Except.error PyErr.keyError :=
    extractNames_err _ ⟨i, hmem, hn⟩
  simp [update_preferences, hTe, updatePreferenceVectors,
    updatePreferenceVectorsGo, hne, herr]

/-- C10 witness: one rated hotels interaction carrying a query text but no
`item_name` makes the call raise `KeyError`. -/
theorem c10_witness :
    gatherTexts interNoName2 profEmpty ≠ [] ∧
    update_preferences env0 emptyPrefs "u1" interNoName2 profEmpty "October"
      = Except.error PyErr.keyError :=
  ⟨by simp [gatherTexts, interNoName2, profEmpty],
    c10_rated_missing_name_keyerror env0 emptyPrefs "u1" interNoName2 profEmpty
      "October" (by simp [gatherTexts, interNoName2, profEmpty])
      ⟨some "beach", none, some "hotels", some 5⟩
      (by simp [interNoName2]) rfl (by simp [truthyRating, bne_iff_ne]) rfl⟩

end TravelBuddy
